import Mathlib

/-!
Verification development for the PearlPath marketplace API.

The definitions below are a shallow embedding of the JavaScript source:
  - utils/helpers.js  (businessUtils, geoUtils)
  - models/Booking.js, models/Guide.js, models/Driver.js
  - controllers/bookingController.js, controllers/rideController.js
  - database/schema.sql  (names_are_similar, auto_approve_poi)

Conventions of the embedding:
  - JavaScript numbers are modelled as rationals; the special values
    undefined and NaN, which matter for the rating flow, are modelled by
    the type JVal together with JS-faithful arithmetic and comparisons.
  - Timestamps are epoch milliseconds (field ms of JSDate); the Date
    accessors getHours() and the locale weekday string are carried as
    explicit fields of JSDate.
  - The ambient wall clock reads (new Date() in cancelBooking, getDay()
    in calculateSurgeMultiplier) are passed as explicit arguments,
    making the state dependence visible.
  - Database tables are lists of records; controller endpoints map a
    request and a DB to an HTTP-style result plus the successor DB.
-/

/-- JavaScript runtime values relevant to the rating flow: a finite
number, undefined, or NaN. -/
inductive JVal where
  | num (q : ℚ)
  | undef
  | nan
deriving DecidableEq

/-- ToNumber coercion: undefined and NaN both fail to be finite numbers. -/
def JVal.toNumber : JVal → Option ℚ
  | .num q => some q
  | .undef => none
  | .nan => none

/-- JS addition: any operand that coerces to NaN makes the result NaN. -/
def jAdd (a b : JVal) : JVal :=
  match a.toNumber, b.toNumber with
  | some x, some y => .num (x + y)
  | _, _ => .nan

/-- JS multiplication with NaN propagation. -/
def jMul (a b : JVal) : JVal :=
  match a.toNumber, b.toNumber with
  | some x, some y => .num (x * y)
  | _, _ => .nan

/-- JS division with NaN propagation.  Division by zero is also mapped to
NaN; no call site in the embedded code divides by zero. -/
def jDiv (a b : JVal) : JVal :=
  match a.toNumber, b.toNumber with
  | some x, some y => if y = 0 then .nan else .num (x / y)
  | _, _ => .nan

/-- JS comparison a < b: false whenever either side coerces to NaN
(in particular undefined < 1 is false). -/
def jLt (a b : JVal) : Bool :=
  match a.toNumber, b.toNumber with
  | some x, some y => decide (x < y)
  | _, _ => false

/-- JS comparison a > b with the same NaN semantics. -/
def jGt (a b : JVal) : Bool :=
  match a.toNumber, b.toNumber with
  | some x, some y => decide (x > y)
  | _, _ => false

/-- Math.round on a rational: floor(x + 1/2); NaN input gives NaN. -/
def jRound (a : JVal) : JVal :=
  match a.toNumber with
  | some x => .num ((⌊x + 1/2⌋ : ℤ) : ℚ)
  | none => .nan

/-- Math.round for plain rational arguments. -/
def jsRound (x : ℚ) : ℤ := ⌊x + 1/2⌋

/-- A JavaScript Date as used by the embedded code: epoch milliseconds
plus the two accessors the source reads, getHours() and the en-US
weekday string of toLocaleDateString (the source passes the invalid
option value weekday: 'lowercase' to Intl; the embedding abstracts the
computed weekday as a field). -/
structure JSDate where
  ms : ℚ
  weekday : String
  hours : ℤ
deriving DecidableEq

/-- The authenticated request user (req.user). -/
structure ReqUser where
  id : String
  role : String
deriving DecidableEq

/-- Row of the bookings table (fields used by the embedded endpoints). -/
structure BookingRec where
  id : String
  userId : String
  guideId : Option String
  driverId : Option String
  startDate : JSDate
  endDate : JSDate
  duration : ℤ
  totalAmount : ℚ
  commission : ℚ
  status : String
  cancelledBy : Option String
  cancellationReason : Option String
  refundAmount : Option ℚ
  rating : JVal
  review : Option String
deriving DecidableEq

/-- Row of the guides table (fields used by the embedded endpoints). -/
structure GuideRec where
  id : String
  userId : String
  hourlyRate : ℚ
  maxGroupSize : ℕ
  availableDays : List String
  whStart : String
  whEnd : String
  rating : JVal
  totalReviews : ℕ
  totalBookings : ℕ
  isAvailable : Bool
  verificationStatus : String
deriving DecidableEq

/-- Row of the drivers table (fields used by the embedded endpoints). -/
structure DriverRec where
  id : String
  userId : String
  baseRate : ℚ
  perKmRate : ℚ
  perMinuteRate : ℚ
  availableDays : List String
  whStart : String
  whEnd : String
  rating : JVal
  totalReviews : ℕ
  totalRides : ℕ
  isOnline : Bool
  verificationStatus : String
  subscriptionTier : String
deriving DecidableEq

/-- Row of the safety_incidents table. -/
structure IncidentRec where
  id : String
  bookingId : String
  userId : String
  driverId : Option String
  incidentType : String
  locLat : ℚ
  locLng : ℚ
  message : String
  status : String
deriving DecidableEq

/-- The datastore the endpoints act on. -/
structure DB where
  guides : List GuideRec
  drivers : List DriverRec
  bookings : List BookingRec
  incidents : List IncidentRec
deriving DecidableEq

/-- Outcome of a controller endpoint, by HTTP status family. -/
inductive HttpResult (α : Type) where
  | notFound (msg : String)
  | forbidden (msg : String)
  | badRequest (msg : String)
  | ok (val : α)
deriving DecidableEq

/-- Booking.findById on the bookings table. -/
def findBooking (bs : List BookingRec) (id : String) : Option BookingRec :=
  bs.find? (fun b => b.id == id)

/-- Write back an updated booking row. -/
def replaceBooking (bs : List BookingRec) (b : BookingRec) : List BookingRec :=
  bs.map (fun x => if x.id == b.id then b else x)

/-- Leading-digit parse of the hour component, modelling
parseInt(workingHours.start.split(':')[0]) for the well-formed "HH:MM"
strings the code stores. -/
def parseHour (s : String) : ℤ :=
  let tok := s.data.takeWhile (fun c => c ≠ ':')
  let digits := tok.takeWhile Char.isDigit
  ((digits.foldl (fun n c => n * 10 + (c.toNat - 48)) 0 : ℕ) : ℤ)

/-- Guide.isAvailableForBooking (models/Guide.js): checks the
availability flag, the weekday and the working-hours window of the
requested start.  Note that it consults no existing bookings. -/
def isAvailableForBooking (g : GuideRec) (startTime : JSDate) (duration : ℤ) : Bool :=
  if g.isAvailable = false then false
  else if g.availableDays.contains startTime.weekday = false then false
  else
    let startHour := startTime.hours
    let workingStart := parseHour g.whStart
    let workingEnd := parseHour g.whEnd
    let endHour := startHour + duration
    decide (workingStart ≤ startHour) && decide (endHour ≤ workingEnd)

/-- Driver.isAvailableForRide (models/Driver.js): same shape as the
guide check, gated on isOnline; it also consults no existing bookings. -/
def isAvailableForRide (d : DriverRec) (startTime : JSDate) (duration : ℤ) : Bool :=
  if d.isOnline = false then false
  else if d.availableDays.contains startTime.weekday = false then false
  else
    let startHour := startTime.hours
    let workingStart := parseHour d.whStart
    let workingEnd := parseHour d.whEnd
    let endHour := startHour + duration
    decide (workingStart ≤ startHour) && decide (endHour ≤ workingEnd)

/-- businessUtils.calculateGuideCommission: 10% when verified, 15%
otherwise. -/
def calculateGuideCommission (amount : ℚ) (isVerified : Bool) : ℚ :=
  let commissionRate : ℚ := if isVerified then 10/100 else 15/100
  amount * commissionRate

/-- businessUtils.calculateDriverCommission: flat 5%. -/
def calculateDriverCommission (amount : ℚ) : ℚ :=
  amount * (5/100)

/-- businessUtils.calculateSurgeMultiplier.  The source reads
new Date().getDay() for the weekend bump; that ambient clock read is the
explicit argument currentDay (0 = Sunday .. 6 = Saturday). -/
def calculateSurgeMultiplier (time : ℤ) (weather : String) (demand : ℚ) (currentDay : ℤ) : ℚ :=
  let m0 : ℚ := 1
  let m1 := if 7 ≤ time ∧ time ≤ 9 then m0 + 2/10 else m0
  let m2 := if 17 ≤ time ∧ time ≤ 19 then m1 + 2/10 else m1
  let m3 := if currentDay = 0 ∨ currentDay = 6 then m2 + 1/10 else m2
  let m4 := if weather = "rain" then m3 + 15/100 else m3
  let m5 := if weather = "storm" then m4 + 25/100 else m4
  let m6 := if demand > 8/10 then m5 + 3/10
            else if demand > 6/10 then m5 + 15/100 else m5
  min m6 2

/-- Booking.canBeCancelled: pending or confirmed, and strictly more than
2 hours before the stored start; nowMs is the new Date() read. -/
def canBeCancelled (b : BookingRec) (nowMs : ℚ) : Bool :=
  let hoursUntilStart := (b.startDate.ms - nowMs) / (1000 * 60 * 60)
  ((b.status == "pending") || (b.status == "confirmed")) && decide (hoursUntilStart > 2)

/-- Booking.calculateRefundAmount: returns 0 unless the booking status
is already cancelled; otherwise the 24h/2h tier on hours until start. -/
def calculateRefundAmount (b : BookingRec) (nowMs : ℚ) : ℚ :=
  if (b.status == "cancelled") = false then 0
  else
    let hoursUntilStart := (b.startDate.ms - nowMs) / (1000 * 60 * 60)
    if hoursUntilStart > 24 then b.totalAmount
    else if hoursUntilStart > 2 then b.totalAmount * (5/10)
    else 0

/-- Booking.calculateCommission: guide part always calls
calculateGuideCommission with isVerified hardcoded to true; driver part
adds the flat 5%. -/
def bookingCalculateCommission (b : BookingRec) : ℚ :=
  (if b.guideId.isSome then calculateGuideCommission b.totalAmount true else 0) +
  (if b.driverId.isSome then calculateDriverCommission b.totalAmount else 0)

/-- Guide.updateRating and Driver.updateRating: running average over
JS numbers, stored rounded to one decimal; a non-numeric newRating
poisons the stored average to NaN. -/
def updateRating (oldRating : JVal) (totalReviews : ℕ) (newRating : JVal) : JVal × ℕ :=
  let n := totalReviews + 1
  let avg := jDiv (jAdd (jMul oldRating (.num totalReviews)) newRating) (.num n)
  (jDiv (jRound (jMul avg (.num 10))) (.num 10), n)

/-- Apply Guide.updateRating to a guide row. -/
def applyGuideRating (g : GuideRec) (r : JVal) : GuideRec :=
  let p := updateRating g.rating g.totalReviews r
  { g with rating := p.1, totalReviews := p.2 }

/-- Apply Driver.updateRating to a driver row. -/
def applyDriverRating (d : DriverRec) (r : JVal) : DriverRec :=
  let p := updateRating d.rating d.totalReviews r
  { d with rating := p.1, totalReviews := p.2 }

/-- Request body of POST /bookings. -/
structure CreateReq where
  guideId : Option String
  driverId : Option String
  startTime : JSDate
  endTime : JSDate
  duration : ℤ
  totalAmount : ℚ
deriving DecidableEq

/-- Booking.create followed by the 201 response: inserts a fresh pending
booking row (the generated uuid is the argument newId). -/
def createBookingInsert (user : ReqUser) (db : DB) (req : CreateReq) (newId : String) :
    HttpResult BookingRec × DB :=
  let b : BookingRec :=
    { id := newId, userId := user.id, guideId := req.guideId, driverId := req.driverId,
      startDate := req.startTime, endDate := req.endTime, duration := req.duration,
      totalAmount := req.totalAmount, commission := 0, status := "pending",
      cancelledBy := none, cancellationReason := none, refundAmount := none,
      rating := .undef, review := none }
  (.ok b, { db with bookings := db.bookings ++ [b] })

/-- Driver half of the createBooking availability validation. -/
def createBookingDriverStep (user : ReqUser) (db : DB) (req : CreateReq) (newId : String) :
    HttpResult BookingRec × DB :=
  match req.driverId with
  | none => createBookingInsert user db req newId
  | some did =>
    match db.drivers.find? (fun d => d.id == did) with
    | none => (.notFound "Driver not found", db)
    | some d =>
      if isAvailableForRide d req.startTime req.duration = false then
        (.badRequest "Driver not available for the selected time", db)
      else createBookingInsert user db req newId

/-- bookingController.createBooking: validates the named guide and
driver with isAvailableForBooking / isAvailableForRide (which inspect
only flag, weekday and working hours) and then inserts the booking. -/
def createBooking (user : ReqUser) (db : DB) (req : CreateReq) (newId : String) :
    HttpResult BookingRec × DB :=
  match req.guideId with
  | none => createBookingDriverStep user db req newId
  | some gid =>
    match db.guides.find? (fun g => g.id == gid) with
    | none => (.notFound "Guide not found", db)
    | some g =>
      if isAvailableForBooking g req.startTime req.duration = false then
        (.badRequest "Guide not available for the selected time", db)
      else createBookingDriverStep user db req newId

/-- Authorization predicate shared by confirm, start and complete: a
named provider or an admin or moderator. -/
def canActOnBooking (b : BookingRec) (u : ReqUser) : Bool :=
  (b.guideId == some u.id) || (b.driverId == some u.id) ||
    (["admin", "moderator"] : List String).contains u.role

/-- bookingController.confirmBooking: finds the booking, authorizes, and
calls Booking.confirm, which sets status to confirmed with no check on
the current status. -/
def confirmBooking (u : ReqUser) (db : DB) (id : String) : HttpResult BookingRec × DB :=
  match findBooking db.bookings id with
  | none => (.notFound "Booking not found", db)
  | some b =>
    if canActOnBooking b u = false then (.forbidden "Access denied", db)
    else
      let b' := { b with status := "confirmed" }
      (.ok b', { db with bookings := replaceBooking db.bookings b' })

/-- bookingController.startBooking: same shape, status set to
in_progress unconditionally. -/
def startBooking (u : ReqUser) (db : DB) (id : String) : HttpResult BookingRec × DB :=
  match findBooking db.bookings id with
  | none => (.notFound "Booking not found", db)
  | some b =>
    if canActOnBooking b u = false then (.forbidden "Access denied", db)
    else
      let b' := { b with status := "in_progress" }
      (.ok b', { db with bookings := replaceBooking db.bookings b' })

/-- Increment Guide.totalBookings for the named guide, if any. -/
def incrementGuideBookings (gs : List GuideRec) (gid : Option String) : List GuideRec :=
  match gid with
  | none => gs
  | some i => gs.map (fun g => if g.id == i then { g with totalBookings := g.totalBookings + 1 } else g)

/-- Increment Driver.totalRides for the named driver, if any. -/
def incrementDriverRides (ds : List DriverRec) (did : Option String) : List DriverRec :=
  match did with
  | none => ds
  | some i => ds.map (fun d => if d.id == i then { d with totalRides := d.totalRides + 1 } else d)

/-- bookingController.completeBooking: finds the booking, authorizes,
sets status to completed with no check on the current status, then
recomputes the commission and increments the provider counters. -/
def completeBooking (u : ReqUser) (db : DB) (id : String) : HttpResult BookingRec × DB :=
  match findBooking db.bookings id with
  | none => (.notFound "Booking not found", db)
  | some b =>
    if canActOnBooking b u = false then (.forbidden "Access denied", db)
    else
      let b1 := { b with status := "completed" }
      let b2 := { b1 with commission := bookingCalculateCommission b1 }
      (.ok b2,
        { db with
            bookings := replaceBooking db.bookings b2,
            guides := incrementGuideBookings db.guides b.guideId,
            drivers := incrementDriverRides db.drivers b.driverId })

/-- bookingController.cancelBooking: finds the booking, authorizes
(requester, named provider, or admin/moderator), gates on
canBeCancelled, computes the refund with calculateRefundAmount while the
status is still the pre-cancellation one, and then cancels.  nowMs is
the new Date() wall-clock read. -/
def cancelBooking (u : ReqUser) (db : DB) (id : String) (reason : Option String) (nowMs : ℚ) :
    HttpResult BookingRec × DB :=
  match findBooking db.bookings id with
  | none => (.notFound "Booking not found", db)
  | some b =>
    let canCancel := (b.userId == u.id) || (b.guideId == some u.id) || (b.driverId == some u.id) ||
      (["admin", "moderator"] : List String).contains u.role
    if canCancel = false then (.forbidden "Access denied", db)
    else if canBeCancelled b nowMs = false then
      (.badRequest "Booking cannot be cancelled at this time", db)
    else
      let refund := calculateRefundAmount b nowMs
      let b' := { b with
        status := "cancelled", cancelledBy := some u.id,
        cancellationReason := reason, refundAmount := some refund }
      (.ok b', { db with bookings := replaceBooking db.bookings b' })

/-- bookingController.rateBooking: the range guard rejects only when
rating < 1 or rating > 5 evaluates to true under JS comparison
semantics; then requester-only and completed-only checks; then the
rating is written on the booking and pushed into the provider
running-average update.  There is no check that the booking is not
already rated. -/
def rateBooking (u : ReqUser) (db : DB) (id : String) (rating : JVal) (review : Option String) :
    HttpResult BookingRec × DB :=
  if jLt rating (.num 1) || jGt rating (.num 5) then
    (.badRequest "Rating must be between 1 and 5", db)
  else
    match findBooking db.bookings id with
    | none => (.notFound "Booking not found", db)
    | some b =>
      if (b.userId == u.id) = false then (.forbidden "Access denied", db)
      else if (b.status == "completed") = false then
        (.badRequest "Can only rate completed bookings", db)
      else
        let b' := { b with rating := rating, review := review }
        let guides' := match b.guideId with
          | none => db.guides
          | some gid => db.guides.map (fun g => if g.id == gid then applyGuideRating g rating else g)
        let drivers' := match b.driverId with
          | none => db.drivers
          | some did => db.drivers.map (fun d => if d.id == did then applyDriverRating d rating else d)
        (.ok b',
          { db with
            bookings := replaceBooking db.bookings b',
            guides := guides', drivers := drivers' })

/-- The ride-completion commission of rideController.completeRide:
Math.round(fare * 0.10 * 100) / 100. -/
def rideCommission (fare : ℚ) : ℚ :=
  ((jsRound (fare * (10/100) * 100) : ℤ) : ℚ) / 100

/-- rideController.completeRide: driver-only, in_progress-only; the
final fare defaults to the stored total via JS truthiness (a fare of 0
also falls back), and the commission is 10% of the fare rounded to two
decimals. -/
def completeRide (u : ReqUser) (db : DB) (id : String) (actualDuration : Option ℤ)
    (finalFare : Option ℚ) : HttpResult BookingRec × DB :=
  match findBooking db.bookings id with
  | none => (.notFound "Ride not found", db)
  | some b =>
    match b.driverId.bind (fun did => db.drivers.find? (fun d => d.id == did)) with
    | none => (.notFound "Ride not found", db)
    | some d =>
      if (d.userId == u.id) = false then (.forbidden "Access denied", db)
      else if (b.status == "in_progress") = false then
        (.badRequest "Cannot complete ride", db)
      else
        let fare := match finalFare with
          | some f => if f = 0 then b.totalAmount else f
          | none => b.totalAmount
        let b' := { b with
          status := "completed", duration := actualDuration.getD b.duration,
          totalAmount := fare, commission := rideCommission fare }
        (.ok b', { db with
          bookings := replaceBooking db.bookings b',
          drivers := incrementDriverRides db.drivers b.driverId })

/-- The safety_incidents row inserted by triggerSOS: type sos, status
open, and the message defaulted through JS truthiness (an absent or
empty message falls back to the fixed text). -/
def sosIncident (u : ReqUser) (b : BookingRec) (id : String) (currentLat currentLng : ℚ)
    (message : Option String) (newId : String) : IncidentRec :=
  let msg := match message with
    | some m => if m = "" then "Emergency SOS triggered" else m
    | none => "Emergency SOS triggered"
  { id := newId, bookingId := id, userId := u.id, driverId := b.driverId,
    incidentType := "sos", locLat := currentLat, locLng := currentLng,
    message := msg, status := "open" }

/-- rideController.triggerSOS: finds the booking, authorizes the
requester only, and unconditionally inserts an sos incident with status
open; no booking-state or other business check appears anywhere. -/
def triggerSOS (u : ReqUser) (db : DB) (id : String) (currentLat currentLng : ℚ)
    (message : Option String) (newId : String) : HttpResult IncidentRec × DB :=
  match findBooking db.bookings id with
  | none => (.notFound "Ride not found", db)
  | some b =>
    if (b.userId == u.id) = false then (.forbidden "Access denied", db)
    else
      let inc := sosIncident u b id currentLat currentLng message newId
      (.ok inc, { db with incidents := db.incidents ++ [inc] })

/-- Statuses that occupy a provider's time (spec glossary and the
conflict query of checkGuideAvailability in the guide controller). -/
def occupyingStatus (s : String) : Bool :=
  s == "pending" || s == "confirmed" || s == "in_progress"

/-- Half-open interval overlap of a booking with a window given in epoch
milliseconds. -/
def overlapsWindow (b : BookingRec) (s e : ℚ) : Prop :=
  b.startDate.ms < e ∧ s < b.endDate.ms

/-- geoUtils.toRadians. -/
noncomputable def toRadians (degrees : ℝ) : ℝ :=
  degrees * (Real.pi / 180)

/-- JavaScript Math.atan2(y, x): arctangent of y/x with quadrant
correction. -/
noncomputable def atan2 (y x : ℝ) : ℝ :=
  if 0 < x then Real.arctan (y / x)
  else if x < 0 ∧ 0 ≤ y then Real.arctan (y / x) + Real.pi
  else if x < 0 ∧ y < 0 then Real.arctan (y / x) - Real.pi
  else if x = 0 ∧ 0 < y then Real.pi / 2
  else if x = 0 ∧ y < 0 then -(Real.pi / 2)
  else 0

/-- geoUtils.calculateDistance (utils/helpers.js): haversine
great-circle distance with Earth radius 6371 km. -/
noncomputable def calculateDistance (lat1 lng1 lat2 lng2 : ℝ) : ℝ :=
  let dLat := toRadians (lat2 - lat1)
  let dLng := toRadians (lng2 - lng1)
  let a := Real.sin (dLat / 2) * Real.sin (dLat / 2) +
    Real.cos (toRadians lat1) * Real.cos (toRadians lat2) *
    (Real.sin (dLng / 2) * Real.sin (dLng / 2))
  let c := 2 * atan2 (Real.sqrt a) (Real.sqrt (1 - a))
  6371 * c

/-- The spherical law-of-cosines distance used by the POI triggers in
database/schema.sql: 6371 * acos(cos(lat1)cos(lat2)cos(lng2-lng1) +
sin(lat1)sin(lat2)), all in radians. -/
noncomputable def sqlDistance (lat1 lng1 lat2 lng2 : ℝ) : ℝ :=
  6371 * Real.arccos
    (Real.cos (toRadians lat1) * Real.cos (toRadians lat2) *
      Real.cos (toRadians lng2 - toRadians lng1) +
     Real.sin (toRadians lat1) * Real.sin (toRadians lat2))

/-- The stoplist of generic nouns stripped by names_are_similar. -/
def stopNouns : List (List Char) :=
  ["temple", "shrine", "museum", "park", "beach", "lake",
   "mountain", "hill", "river", "cave"].map String.data

/-- Split a character list on spaces (the collapse-and-trim of
consecutive spaces happens by dropping the empty chunks). -/
def splitOnSpace : List Char → List (List Char)
  | [] => [[]]
  | c :: rest =>
    if c = ' ' then [] :: splitOnSpace rest
    else
      match splitOnSpace rest with
      | [] => [[c]]
      | t :: ts => (c :: t) :: ts

/-- Name normalization of names_are_similar (schema.sql): lowercase,
drop every character that is not an ASCII letter, digit or whitespace,
remove the stoplist words, collapse whitespace and trim.  The result is
kept as the token list; the SQL string is the tokens joined by single
spaces. -/
def nameTokens (s : String) : List (List Char) :=
  let kept := s.data.filter (fun c => c.isAlphanum || c = ' ')
  let low := kept.map Char.toLower
  (splitOnSpace low).filter (fun t => t ≠ [] ∧ ¬ stopNouns.contains t)

/-- Join tokens with single spaces, recovering the normalized SQL
string. -/
def joinTokens : List (List Char) → List Char
  | [] => []
  | [t] => t
  | t :: ts => t ++ ' ' :: joinTokens ts

/-- Substring test matching POSITION(a IN b) > 0 (an empty needle is a
substring of everything). -/
def isSubList (needle hay : List Char) : Bool :=
  match hay with
  | [] => needle.isEmpty
  | _ :: t => needle.isPrefixOf hay || isSubList needle t

/-- names_are_similar (schema.sql): after normalization, similar when
the names are equal, or one is a substring of the other, or the length
ratio min/max exceeds 0.6. -/
def names_are_similar (name1 name2 : String) : Bool :=
  let n1 := joinTokens (nameTokens name1)
  let n2 := joinTokens (nameTokens name2)
  if n1 = n2 then true
  else if isSubList n1 n2 || isSubList n2 n1 then true
  else
    let ratio : ℚ := (min n1.length n2.length : ℚ) / (max n1.length n2.length : ℚ)
    decide (ratio > 6/10)

/-- Row of the pois table (fields used by the approval trigger). -/
structure PoiRow where
  name : String
  status : String
  latitude : ℝ
  longitude : ℝ

/-- Occupying approval states of the dedup queries. -/
def poiActive (p : PoiRow) : Prop :=
  p.status = "active" ∨ p.status = "approved"

/-- auto_approve_poi (schema.sql): count occupying POIs within 0.3 km;
if any exists, flag needs_review exactly when one of them also has a
similar name, otherwise approve; with no nearby POI, approve. -/
noncomputable def auto_approve_poi (newName : String) (newLat newLng : ℝ)
    (pois : List PoiRow) : String :=
  open Classical in
  if ∃ p ∈ pois, poiActive p ∧ sqlDistance newLat newLng p.latitude p.longitude ≤ 3/10 then
    if ∃ p ∈ pois, poiActive p ∧ sqlDistance newLat newLng p.latitude p.longitude ≤ 3/10 ∧
        names_are_similar newName p.name = true then
      "needs_review"
    else "approved"
  else "approved"

/-! Shared helper lemmas. -/

/-- Adding undefined to anything under JS arithmetic yields NaN. -/
theorem jAdd_undef (a : JVal) : jAdd a .undef = .nan := by
  cases a <;> rfl

/-- A non-numeric new rating poisons the stored running average to NaN
while still bumping the review count. -/
theorem updateRating_undef (a : JVal) (n : ℕ) :
    updateRating a n .undef = (.nan, n + 1) := by
  simp [updateRating, jAdd_undef, jDiv, jMul, jRound, JVal.toNumber]

/-- The spec example for the running average: a 4.0 average over 10
reviews plus a new rating of 5 stores 4.1 over 11 reviews. -/
theorem updateRating_spec_example :
    updateRating (.num 4) 10 (.num 5) = (.num (41/10), 11) := by
  simp only [updateRating, jDiv, jAdd, jMul, jRound, JVal.toNumber]
  norm_num

/-- Lookup of the only booking row. -/
theorem findBooking_singleton (b : BookingRec) : findBooking [b] b.id = some b := by
  simp [findBooking]

/-! Shared concrete fixtures. -/

/-- A pending guide booking by requester u1 whose start is the given
epoch-millisecond timestamp (10:00, a monday, two hours long, total
amount 100). -/
def demoPending (startMs : ℚ) : BookingRec :=
  { id := "b1", userId := "u1", guideId := some "g1", driverId := none,
    startDate := { ms := startMs, weekday := "monday", hours := 10 },
    endDate := { ms := startMs + 7200000, weekday := "monday", hours := 12 },
    duration := 2, totalAmount := 100, commission := 0, status := "pending",
    cancelledBy := none, cancellationReason := none, refundAmount := none,
    rating := .undef, review := none }

/-- An available verified guide working mondays 08:00 to 20:00. -/
def demoGuide : GuideRec :=
  { id := "g1", userId := "gu1", hourlyRate := 50, maxGroupSize := 10,
    availableDays := ["monday"], whStart := "08:00", whEnd := "20:00",
    rating := .num 0, totalReviews := 0, totalBookings := 0,
    isAvailable := true, verificationStatus := "verified" }

/-- The 10:00 slot of the fixture day. -/
def demoWindow : JSDate := { ms := 36000000, weekday := "monday", hours := 10 }

/-- The 12:00 slot of the fixture day. -/
def demoWindowEnd : JSDate := { ms := 43200000, weekday := "monday", hours := 12 }

/-- A pending booking already occupying the guide's 10:00 to 12:00 slot. -/
def demoExisting : BookingRec :=
  { id := "b1", userId := "u1", guideId := some "g1", driverId := none,
    startDate := demoWindow, endDate := demoWindowEnd,
    duration := 2, totalAmount := 100, commission := 0, status := "pending",
    cancelledBy := none, cancellationReason := none, refundAmount := none,
    rating := .undef, review := none }

/-- A second createBooking request for exactly the same guide and slot. -/
def demoReq : CreateReq :=
  { guideId := some "g1", driverId := none, startTime := demoWindow,
    endTime := demoWindowEnd, duration := 2, totalAmount := 100 }

/-- The booking of demoExisting after completion. -/
def demoCompleted : BookingRec := { demoExisting with status := "completed" }

/-! Claim C1. -/

/-- C1: evaluation of the cancellation flow at the spec's refund-tier
test points.  A pending booking cancelled 30 hours before start records
refundAmount 0, not the total of 100; cancelled 10 hours before start it
records 0, not 50; and a cancel attempt 1 hour before start fails and
leaves the store unchanged.  The tier branches of calculateRefundAmount
are unreachable from cancelBooking because the refund is computed while
the status is still pending or confirmed and calculateRefundAmount
returns 0 for any status other than cancelled. -/
theorem C1_cancel_refund_evaluation :
    ((cancelBooking ⟨"u1", "user"⟩ ⟨[], [], [demoPending 108000000], []⟩ "b1" none 0).1 =
        .ok { demoPending 108000000 with
          status := "cancelled", cancelledBy := some "u1",
          cancellationReason := none, refundAmount := some 0 } ∧
      (demoPending 108000000).totalAmount = 100 ∧ some (0 : ℚ) ≠ some (100 : ℚ)) ∧
    ((cancelBooking ⟨"u1", "user"⟩ ⟨[], [], [demoPending 36000000], []⟩ "b1" none 0).1 =
        .ok { demoPending 36000000 with
          status := "cancelled", cancelledBy := some "u1",
          cancellationReason := none, refundAmount := some 0 } ∧
      some (0 : ℚ) ≠ some ((demoPending 36000000).totalAmount * (5/10))) ∧
    (cancelBooking ⟨"u1", "user"⟩ ⟨[], [], [demoPending 3600000], []⟩ "b1" none 0 =
      (.badRequest "Booking cannot be cancelled at this time",
        ⟨[], [], [demoPending 3600000], []⟩)) := by
  refine ⟨⟨?_, rfl, by simp⟩, ⟨?_, by norm_num [demoPending]⟩, ?_⟩
  · have hfind : findBooking [demoPending 108000000] "b1" = some (demoPending 108000000) := by
      simp [findBooking, demoPending]
    have hcan : canBeCancelled (demoPending 108000000) 0 = true := by
      simp only [canBeCancelled, demoPending, Bool.and_eq_true, Bool.or_eq_true, beq_iff_eq,
        decide_eq_true_eq]
      norm_num
    simp only [cancelBooking, hfind, hcan]
    simp [demoPending, calculateRefundAmount]
  · have hfind : findBooking [demoPending 36000000] "b1" = some (demoPending 36000000) := by
      simp [findBooking, demoPending]
    have hcan : canBeCancelled (demoPending 36000000) 0 = true := by
      simp only [canBeCancelled, demoPending, Bool.and_eq_true, Bool.or_eq_true, beq_iff_eq,
        decide_eq_true_eq]
      norm_num
    simp only [cancelBooking, hfind, hcan]
    simp [demoPending, calculateRefundAmount]
  · have hfind : findBooking [demoPending 3600000] "b1" = some (demoPending 3600000) := by
      simp [findBooking, demoPending]
    have hcan : canBeCancelled (demoPending 3600000) 0 = false := by
      simp only [canBeCancelled, demoPending]
      norm_num
    simp only [cancelBooking, hfind, hcan]
    simp [demoPending]

/-! Claim C2. -/

/-- C2: createBooking accepts a request that exactly overlaps an
existing occupying (pending) booking of the same guide: the guide
availability check reads only the flag, weekday and working hours, so
the overlapping booking is inserted instead of failing with a scheduling
conflict. -/
theorem C2_createBooking_overlap_evaluation :
    ∃ b2, createBooking ⟨"u2", "user"⟩ ⟨[demoGuide], [], [demoExisting], []⟩ demoReq "b2" =
        (.ok b2, ⟨[demoGuide], [], [demoExisting, b2], []⟩) ∧
      occupyingStatus demoExisting.status = true ∧ occupyingStatus b2.status = true ∧
      b2.guideId = demoExisting.guideId ∧
      overlapsWindow demoExisting b2.startDate.ms b2.endDate.ms := by
  refine ⟨_, rfl, rfl, rfl, rfl, ?_, ?_⟩
  · show (36000000 : ℚ) < 43200000
    norm_num
  · show (36000000 : ℚ) < 43200000
    norm_num

/-! Claim C3. -/

/-- C3 counterexample: confirm invoked on a completed (terminal) booking
does not fail; it succeeds and overwrites the status with confirmed. -/
theorem C3_confirm_from_completed :
    demoCompleted.status = "completed" ∧
    (confirmBooking ⟨"g1", "user"⟩ ⟨[], [], [demoCompleted], []⟩ "b1").1 =
      .ok { demoCompleted with status := "confirmed" } ∧
    ("confirmed" : String) ≠ "completed" := by
  refine ⟨rfl, rfl, by simp⟩

/-- C3 amended: from a terminal status (completed or cancelled), cancel
fails and leaves the store unchanged, but confirm, start and complete
carry no status guard: each succeeds for an authorized provider and
overwrites the terminal status. -/
theorem C3_terminal_transition_behaviour (b : BookingRec) (u : ReqUser)
    (gs : List GuideRec) (ds : List DriverRec) (incs : List IncidentRec)
    (reason : Option String) (nowMs : ℚ)
    (hterm : b.status = "completed" ∨ b.status = "cancelled")
    (hauth : b.guideId = some u.id) :
    (cancelBooking u ⟨gs, ds, [b], incs⟩ b.id reason nowMs =
      (.badRequest "Booking cannot be cancelled at this time", ⟨gs, ds, [b], incs⟩)) ∧
    ((confirmBooking u ⟨gs, ds, [b], incs⟩ b.id).1 = .ok { b with status := "confirmed" }) ∧
    ((startBooking u ⟨gs, ds, [b], incs⟩ b.id).1 = .ok { b with status := "in_progress" }) ∧
    ((completeBooking u ⟨gs, ds, [b], incs⟩ b.id).1 = .ok { b with
      status := "completed",
      commission := bookingCalculateCommission { b with status := "completed" } }) := by
  have hfind := findBooking_singleton b
  have hact : canActOnBooking b u = true := by
    simp [canActOnBooking, hauth]
  have hcan : canBeCancelled b nowMs = false := by
    rcases hterm with h | h <;> simp [canBeCancelled, h]
  refine ⟨?_, ?_, ?_, ?_⟩
  · simp only [cancelBooking, hfind, hcan]
    simp [hauth]
  · simp only [confirmBooking, hfind, hact]
    simp
  · simp only [startBooking, hfind, hact]
    simp
  · simp only [completeBooking, hfind, hact]
    simp

/-- C3 witness: the amended behaviour at the concrete completed fixture. -/
theorem C3_terminal_transition_behaviour_witness :
    (cancelBooking ⟨"g1", "user"⟩ ⟨[], [], [demoCompleted], []⟩ demoCompleted.id none 0 =
      (.badRequest "Booking cannot be cancelled at this time", ⟨[], [], [demoCompleted], []⟩)) ∧
    ((confirmBooking ⟨"g1", "user"⟩ ⟨[], [], [demoCompleted], []⟩ demoCompleted.id).1 =
      .ok { demoCompleted with status := "confirmed" }) ∧
    ((startBooking ⟨"g1", "user"⟩ ⟨[], [], [demoCompleted], []⟩ demoCompleted.id).1 =
      .ok { demoCompleted with status := "in_progress" }) ∧
    ((completeBooking ⟨"g1", "user"⟩ ⟨[], [], [demoCompleted], []⟩ demoCompleted.id).1 =
      .ok { demoCompleted with
        status := "completed",
        commission := bookingCalculateCommission { demoCompleted with status := "completed" } }) :=
  C3_terminal_transition_behaviour demoCompleted ⟨"g1", "user"⟩ [] [] [] none 0
    (Or.inl rfl) rfl

/-! Claim C4. -/

/-- The guide of the spec's rating example: average 4.0 over 10 reviews. -/
def ratedGuide : GuideRec := { demoGuide with rating := .num 4, totalReviews := 10 }

/-- A completed booking that already carries a rating of 4. -/
def ratedBooking : BookingRec := { demoExisting with status := "completed", rating := .num 4 }

/-- C4 counterexample: a second rateBooking call on an already-rated
completed booking succeeds (there is no AlreadyRated guard), overwrites
the stored rating with 5, and pushes the new rating into the guide's
running average again. -/
theorem C4_second_rating_succeeds :
    ratedBooking.rating = .num 4 ∧
    (rateBooking ⟨"u1", "user"⟩ ⟨[ratedGuide], [], [ratedBooking], []⟩ "b1" (.num 5) none).1 =
      .ok { ratedBooking with rating := .num 5, review := none } ∧
    (rateBooking ⟨"u1", "user"⟩ ⟨[ratedGuide], [], [ratedBooking], []⟩ "b1" (.num 5) none).2.guides =
      [{ ratedGuide with rating := .num (41/10), totalReviews := 11 }] := by
  have hguard : (jLt (.num 5) (.num 1) || jGt (.num 5) (.num 5)) = false := by
    simp [jLt, jGt, JVal.toNumber]
  have hfind : findBooking [ratedBooking] "b1" = some ratedBooking := by
    simp [findBooking, ratedBooking, demoExisting]
  refine ⟨rfl, ?_, ?_⟩
  · simp only [rateBooking, hguard, hfind]
    simp [ratedBooking, demoExisting]
  · simp only [rateBooking, hguard, hfind]
    simp [ratedBooking, ratedGuide, demoExisting, demoGuide, applyGuideRating,
      updateRating_spec_example]

/-- C4 amended: every rateBooking call by the requester on a completed
booking with an in-range numeric rating succeeds, whatever rating is
already stored (no AlreadyRated error exists), overwriting the stored
rating; and the provider running-average update follows
newAvg = round1((oldAvg*oldCount + newRating)/(oldCount+1)), as in the
spec's 4.0/10-reviews example. -/
theorem C4_rate_overwrites_without_guard (b : BookingRec) (u : ReqUser) (r : ℚ)
    (rev : Option String) (gs : List GuideRec) (ds : List DriverRec) (incs : List IncidentRec)
    (hu : b.userId = u.id) (hs : b.status = "completed") (h1 : 1 ≤ r) (h5 : r ≤ 5) :
    (rateBooking u ⟨gs, ds, [b], incs⟩ b.id (.num r) rev).1 =
      .ok { b with rating := .num r, review := rev } ∧
    updateRating (.num 4) 10 (.num 5) = (.num (41/10), 11) := by
  have hguard : (jLt (.num r) (.num 1) || jGt (.num r) (.num 5)) = false := by
    simp only [jLt, jGt, JVal.toNumber, Bool.or_eq_false_iff, decide_eq_false_iff_not]
    constructor
    · exact not_lt.mpr h1
    · exact not_lt.mpr h5
  have hfind := findBooking_singleton b
  refine ⟨?_, updateRating_spec_example⟩
  simp only [rateBooking, hguard, hfind]
  simp [hu, hs]

/-- C4 witness: the amended behaviour at the concrete rated fixture. -/
theorem C4_rate_overwrites_without_guard_witness :
    (rateBooking ⟨"u1", "user"⟩ ⟨[ratedGuide], [], [ratedBooking], []⟩ ratedBooking.id
        (.num 5) none).1 =
      .ok { ratedBooking with rating := .num 5, review := none } ∧
    updateRating (.num 4) 10 (.num 5) = (.num (41/10), 11) :=
  C4_rate_overwrites_without_guard ratedBooking ⟨"u1", "user"⟩ 5 none
    [ratedGuide] [] [] rfl rfl (by norm_num) (by norm_num)

/-! Claim C5. -/

/-- A verified premium-tier driver. -/
def rideDriver : DriverRec :=
  { id := "d1", userId := "du1", baseRate := 100, perKmRate := 50, perMinuteRate := 5,
    availableDays := ["monday"], whStart := "08:00", whEnd := "20:00",
    rating := .num 0, totalReviews := 0, totalRides := 0, isOnline := true,
    verificationStatus := "verified", subscriptionTier := "premium" }

/-- An in-progress ride booking of that driver with estimated fare 1000. -/
def rideBooking : BookingRec :=
  { demoExisting with
    id := "r1", guideId := none, driverId := some "d1",
    status := "in_progress", totalAmount := 1000 }

/-- C5 counterexample: completing a ride with fare 1000 records a
commission of 100, which is 10% of the fare; the claimed 5% (and the
premium 8% discount tier, although the driver is premium) would be 50
and 80. -/
theorem C5_ride_commission_is_ten_percent :
    rideBooking.totalAmount = 1000 ∧
    (completeRide ⟨"du1", "user"⟩ ⟨[], [rideDriver], [rideBooking], []⟩ "r1"
        none none).1 =
      .ok { rideBooking with
        status := "completed", duration := rideBooking.duration,
        totalAmount := rideBooking.totalAmount, commission := 100 } ∧
    rideDriver.subscriptionTier = "premium" ∧
    (100 : ℚ) ≠ 1000 * (5/100) ∧ (100 : ℚ) ≠ 1000 * (8/100) := by
  have hfind : findBooking [rideBooking] "r1" = some rideBooking := by
    simp [findBooking, rideBooking, demoExisting]
  have hcomm : rideCommission 1000 = 100 := by
    unfold rideCommission jsRound
    norm_num
  refine ⟨rfl, ?_, rfl, by norm_num, by norm_num⟩
  simp only [completeRide, hfind]
  simp [rideBooking, demoExisting, rideDriver, hcomm]

/-- C5 amended: commissions in the code are 10% for a guide booking
independently of the guide's verification status (the flag is hardcoded
true; 15% would apply only to an unverified guide, a case never
invoked), 5% for a driver booking settled through the booking
controller, and 10% of the final fare (rounded to 2 decimals) for a
ride settled through completeRide; no subscription tier is consulted. -/
theorem C5_commission_rates
    (amount : ℚ) (b : BookingRec) (bg : BookingRec) (gs : List GuideRec)
    (incs : List IncidentRec) (rb : BookingRec) (d : DriverRec) (u : ReqUser)
    (hg : bg.guideId.isSome = true) (hgd : bg.driverId = none)
    (hbg : b.guideId = none) (hbd : b.driverId.isSome = true)
    (hrd : rb.driverId = some d.id) (hdu : d.userId = u.id)
    (hrs : rb.status = "in_progress") :
    calculateGuideCommission amount true = amount * (10/100) ∧
    calculateGuideCommission amount false = amount * (15/100) ∧
    bookingCalculateCommission bg = bg.totalAmount * (10/100) ∧
    bookingCalculateCommission b = b.totalAmount * (5/100) ∧
    (completeRide u ⟨gs, [d], [rb], incs⟩ rb.id none none).1 =
      .ok { rb with
        status := "completed", duration := rb.duration,
        totalAmount := rb.totalAmount, commission := rideCommission rb.totalAmount } := by
  refine ⟨rfl, rfl, ?_, ?_, ?_⟩
  · simp [bookingCalculateCommission, hg, hgd, calculateGuideCommission]
  · simp [bookingCalculateCommission, hbg, hbd, calculateDriverCommission]
  · have hfind := findBooking_singleton rb
    simp only [completeRide, hfind, hrd]
    simp [hdu, hrs]

/-- C5 witness: the amended commission facts at the ride fixture. -/
theorem C5_commission_rates_witness :
    calculateGuideCommission 100 true = 100 * (10/100) ∧
    calculateGuideCommission 100 false = 100 * (15/100) ∧
    bookingCalculateCommission { rideBooking with guideId := some "g1", driverId := none } =
      ({ rideBooking with guideId := some "g1", driverId := none } : BookingRec).totalAmount *
        (10/100) ∧
    bookingCalculateCommission rideBooking = rideBooking.totalAmount * (5/100) ∧
    (completeRide ⟨"du1", "user"⟩ ⟨[], [rideDriver], [rideBooking], []⟩ rideBooking.id
        none none).1 =
      .ok { rideBooking with
        status := "completed", duration := rideBooking.duration,
        totalAmount := rideBooking.totalAmount,
        commission := rideCommission rideBooking.totalAmount } :=
  C5_commission_rates 100 rideBooking { rideBooking with guideId := some "g1", driverId := none }
    [] [] rideBooking rideDriver ⟨"du1", "user"⟩ rfl rfl rfl rfl rfl rfl rfl

/-! Claim C7. -/

/-- C7 counterexample: two surge computations with identical arguments
(time 12, clear weather, demand 0.5) disagree between a Monday run and a
Sunday run, because the weekend bump reads the ambient clock rather than
an argument. -/
theorem C7_surge_differs_across_runs :
    calculateSurgeMultiplier 12 "clear" (1/2) 1 = 1 ∧
    calculateSurgeMultiplier 12 "clear" (1/2) 0 = 11/10 ∧
    (1 : ℚ) ≠ 11/10 := by
  refine ⟨?_, ?_, by norm_num⟩
  · simp only [calculateSurgeMultiplier]
    norm_num
    simp [min_def]
  · simp only [calculateSurgeMultiplier]
    norm_num
    simp [min_def]
    norm_num

/-- C7 amended: the surge multiplier is a deterministic function of
(time, weather, demand) together with the weekend-ness of the ambient
day read from the clock at invocation time; runs whose clock days agree
on being a weekend produce identical multipliers. -/
theorem C7_surge_pure_given_weekend (t : ℤ) (w : String) (dem : ℚ) (d1 d2 : ℤ)
    (h : (d1 = 0 ∨ d1 = 6) ↔ (d2 = 0 ∨ d2 = 6)) :
    calculateSurgeMultiplier t w dem d1 = calculateSurgeMultiplier t w dem d2 := by
  simp only [calculateSurgeMultiplier]
  by_cases hd : d1 = 0 ∨ d1 = 6
  · rw [if_pos hd, if_pos (h.mp hd)]
  · rw [if_neg hd, if_neg (fun hc => hd (h.mpr hc))]

/-- C7 witness: two weekday runs agree. -/
theorem C7_surge_pure_given_weekend_witness :
    calculateSurgeMultiplier 8 "rain" (7/10) 1 = calculateSurgeMultiplier 8 "rain" (7/10) 2 :=
  C7_surge_pure_given_weekend 8 "rain" (7/10) 1 2 (by decide)

/-! Claim C9. -/

/-- C9: a triggerSOS call by the booking's requester always succeeds and
appends an sos incident with status open, with no condition on the
booking's status; and a triggerSOS call is rejected only when the
booking is not found or the caller is not the requester, never as a
badRequest business rule. -/
theorem C9_sos_always_creates (db : DB) (u : ReqUser) (id : String) (b : BookingRec)
    (lat lng : ℚ) (m : Option String) (nid : String)
    (hfind : findBooking db.bookings id = some b) (hu : b.userId = u.id) :
    (triggerSOS u db id lat lng m nid =
      (.ok (sosIncident u b id lat lng m nid),
        { db with incidents := db.incidents ++ [sosIncident u b id lat lng m nid] })) ∧
    (sosIncident u b id lat lng m nid).incidentType = "sos" ∧
    (sosIncident u b id lat lng m nid).status = "open" ∧
    (sosIncident u b id lat lng m nid).bookingId = id ∧
    (∀ (db2 : DB) (u2 : ReqUser) (id2 : String) (lat2 lng2 : ℚ) (m2 : Option String)
        (nid2 : String) (msg : String),
      ((triggerSOS u2 db2 id2 lat2 lng2 m2 nid2).1 = .notFound msg →
        findBooking db2.bookings id2 = none) ∧
      ((triggerSOS u2 db2 id2 lat2 lng2 m2 nid2).1 = .forbidden msg →
        ∃ b2, findBooking db2.bookings id2 = some b2 ∧ b2.userId ≠ u2.id) ∧
      (triggerSOS u2 db2 id2 lat2 lng2 m2 nid2).1 ≠ .badRequest msg) := by
  refine ⟨?_, rfl, rfl, rfl, ?_⟩
  · simp only [triggerSOS, hfind]
    simp [hu]
  · intro db2 u2 id2 lat2 lng2 m2 nid2 msg
    rcases hf : findBooking db2.bookings id2 with _ | b2
    · simp [triggerSOS, hf]
    · by_cases hub : (b2.userId == u2.id) = false
      · refine ⟨?_, ?_, ?_⟩
        · intro hcontra
          simp [triggerSOS, hf, hub] at hcontra
        · intro _
          exact ⟨b2, rfl, by simpa using hub⟩
        · simp [triggerSOS, hf, hub]
      · have hub' : (b2.userId == u2.id) = true := by
          revert hub
          cases b2.userId == u2.id <;> simp
        simp [triggerSOS, hf, hub']

/-- A cancelled (terminal-state) ride booking for the SOS fixture. -/
def sosBooking : BookingRec := { demoExisting with status := "cancelled" }

/-- C9 witness: SOS on a cancelled booking still creates the incident. -/
theorem C9_sos_always_creates_witness :
    triggerSOS ⟨"u1", "user"⟩ ⟨[], [], [sosBooking], []⟩ sosBooking.id 6 80 none "i1" =
      (.ok (sosIncident ⟨"u1", "user"⟩ sosBooking sosBooking.id 6 80 none "i1"),
        { guides := [], drivers := [], bookings := [sosBooking],
          incidents := [] ++ [sosIncident ⟨"u1", "user"⟩ sosBooking sosBooking.id 6 80 none "i1"] }) :=
  (C9_sos_always_creates ⟨[], [], [sosBooking], []⟩ ⟨"u1", "user"⟩ sosBooking.id sosBooking
    6 80 none "i1" (findBooking_singleton sosBooking) rfl).1

/-! Claim C10. -/

/-- C10: the rating range guard rejects only when rating < 1 or
rating > 5 evaluates to true; for an absent rating both JS comparisons
are false, so the guard passes, the undefined value is written as the
completed booking's rating, and it is propagated into the named guide's
running-average update (which therefore stores NaN). -/
theorem C10_undefined_rating_flows (g : GuideRec) (ds : List DriverRec)
    (incs : List IncidentRec) (b : BookingRec) (u : ReqUser) (rev : Option String)
    (hg : b.guideId = some g.id) (hu : b.userId = u.id) (hs : b.status = "completed") :
    (jLt .undef (.num 1) || jGt .undef (.num 5)) = false ∧
    (rateBooking u ⟨[g], ds, [b], incs⟩ b.id .undef rev).1 =
      .ok { b with rating := .undef, review := rev } ∧
    (rateBooking u ⟨[g], ds, [b], incs⟩ b.id .undef rev).2.guides =
      [{ g with rating := .nan, totalReviews := g.totalReviews + 1 }] := by
  have hfind := findBooking_singleton b
  refine ⟨rfl, ?_, ?_⟩
  · simp only [rateBooking, hfind]
    simp [jLt, jGt, JVal.toNumber, hu, hs]
  · simp only [rateBooking, hfind]
    simp [jLt, jGt, JVal.toNumber, hu, hs, hg, applyGuideRating, updateRating_undef]

/-- C10 witness: the undefined-rating flow at the completed fixture
booking poisons the guide's stored average to NaN. -/
theorem C10_undefined_rating_flows_witness :
    (rateBooking ⟨"u1", "user"⟩ ⟨[demoGuide], [], [demoCompleted], []⟩ demoCompleted.id
        .undef none).2.guides =
      [{ demoGuide with rating := .nan, totalReviews := demoGuide.totalReviews + 1 }] :=
  (C10_undefined_rating_flows demoGuide [] [] demoCompleted ⟨"u1", "user"⟩ none
    rfl rfl rfl).2.2

/-! Claim C8. -/

/-- The haversine distance of a point to itself vanishes. -/
theorem calculateDistance_self (lat lng : ℝ) : calculateDistance lat lng lat lng = 0 := by
  unfold calculateDistance
  simp [toRadians, sub_self, atan2, Real.sqrt_one, Real.arctan_zero]

/-- The haversine distance is symmetric in its two endpoints. -/
theorem calculateDistance_symm (lat1 lng1 lat2 lng2 : ℝ) :
    calculateDistance lat1 lng1 lat2 lng2 = calculateDistance lat2 lng2 lat1 lng1 := by
  unfold calculateDistance
  have hlat : toRadians (lat1 - lat2) = -toRadians (lat2 - lat1) := by unfold toRadians; ring
  have hlng : toRadians (lng1 - lng2) = -toRadians (lng2 - lng1) := by unfold toRadians; ring
  rw [hlat, hlng]
  simp only [neg_div, Real.sin_neg, neg_mul_neg]
  ring_nf

/-- C8: over all valid coordinates, the great-circle distance of a point
to itself is 0 and the distance is symmetric in its endpoints. -/
theorem C8_distance_zero_and_symmetric (lat1 lng1 lat2 lng2 : ℝ)
    (h1a : -90 ≤ lat1) (h1b : lat1 ≤ 90) (h2a : -180 ≤ lng1) (h2b : lng1 ≤ 180)
    (h3a : -90 ≤ lat2) (h3b : lat2 ≤ 90) (h4a : -180 ≤ lng2) (h4b : lng2 ≤ 180) :
    calculateDistance lat1 lng1 lat1 lng1 = 0 ∧
    calculateDistance lat1 lng1 lat2 lng2 = calculateDistance lat2 lng2 lat1 lng1 :=
  ⟨calculateDistance_self lat1 lng1, calculateDistance_symm lat1 lng1 lat2 lng2⟩

/-- C8 witness: the distance properties at Colombo and Kandy. -/
theorem C8_distance_zero_and_symmetric_witness :
    calculateDistance 6.9271 79.8612 6.9271 79.8612 = 0 ∧
    calculateDistance 6.9271 79.8612 7.2906 80.6337 =
      calculateDistance 7.2906 80.6337 6.9271 79.8612 :=
  C8_distance_zero_and_symmetric 6.9271 79.8612 7.2906 80.6337
    (by norm_num) (by norm_num) (by norm_num) (by norm_num)
    (by norm_num) (by norm_num) (by norm_num) (by norm_num)

/-! Claim C6. -/

/-- An active POI named Galle Fort Museum about 50 m east of the
origin (0.00045 degrees of longitude on the equator). -/
noncomputable def galleFortMuseumRow : PoiRow :=
  { name := "Galle Fort Museum", status := "active", latitude := 0, longitude := 45/100000 }

/-- An active POI named Galle Fort at the same spot. -/
noncomputable def galleFortRow : PoiRow :=
  { name := "Galle Fort", status := "active", latitude := 0, longitude := 45/100000 }

/-- A 0.00045-degree longitude offset on the equator is about 50 m,
well within the 0.3 km dedup radius. -/
theorem sqlDistance_50m : sqlDistance 0 0 0 (45/100000) ≤ 3/10 := by
  unfold sqlDistance toRadians
  simp only [zero_mul, Real.cos_zero, Real.sin_zero, one_mul, mul_zero, sub_zero, add_zero,
    zero_add]
  rw [Real.arccos_cos (by positivity) (by nlinarith [Real.pi_pos])]
  nlinarith [Real.pi_le_four, Real.pi_pos]

/-- After stripping the stoplist word beach, the normalized names
jungle cafe (11 characters) and galle fort (10 characters) have length
ratio 10/11 > 0.6, so names_are_similar accepts them. -/
theorem jungle_beach_similar_to_galle_fort :
    names_are_similar "Jungle Beach Cafe" "Galle Fort" = true := by
  have h1 : joinTokens (nameTokens "Jungle Beach Cafe") = "jungle cafe".data := by decide
  have h2 : joinTokens (nameTokens "Galle Fort") = "galle fort".data := by decide
  simp only [names_are_similar, h1, h2]
  norm_num

/-- C6 counterexample: a POI named Jungle Beach Cafe submitted about
50 m from the active Galle Fort is classified needs_review, not
approved, because the post-stoplist length-ratio test fires. -/
theorem C6_jungle_beach_flagged :
    auto_approve_poi "Jungle Beach Cafe" 0 0 [galleFortRow] = "needs_review" ∧
    ("needs_review" : String) ≠ "approved" ∧
    sqlDistance 0 0 galleFortRow.latitude galleFortRow.longitude ≤ 3/10 := by
  have hc : ∃ p ∈ [galleFortRow], poiActive p ∧
      sqlDistance 0 0 p.latitude p.longitude ≤ 3/10 :=
    ⟨galleFortRow, List.mem_singleton.mpr rfl, Or.inl rfl, sqlDistance_50m⟩
  have hs : ∃ p ∈ [galleFortRow], poiActive p ∧
      sqlDistance 0 0 p.latitude p.longitude ≤ 3/10 ∧
      names_are_similar "Jungle Beach Cafe" p.name = true :=
    ⟨galleFortRow, List.mem_singleton.mpr rfl, Or.inl rfl, sqlDistance_50m,
      jungle_beach_similar_to_galle_fort⟩
  refine ⟨?_, by simp, sqlDistance_50m⟩
  unfold auto_approve_poi
  rw [if_pos hc, if_pos hs]

/-- C6 amended: the classifier returns needs_review exactly when some
existing active or approved POI within 0.3 km has a similar name under
the normalize/substring/length-ratio test, and approved otherwise (in
particular whenever every existing POI is farther than 0.3 km); Galle
Fort next to Galle Fort Museum is flagged needs_review, and so is
Jungle Beach Cafe next to Galle Fort, whose post-stoplist length ratio
10/11 exceeds 0.6. -/
theorem C6_dedup_classifier :
    (∀ (n : String) (lat lng : ℝ) (pois : List PoiRow),
      auto_approve_poi n lat lng pois = "needs_review" ↔
        ∃ p ∈ pois, poiActive p ∧ sqlDistance lat lng p.latitude p.longitude ≤ 3/10 ∧
          names_are_similar n p.name = true) ∧
    (∀ (n : String) (lat lng : ℝ) (pois : List PoiRow),
      auto_approve_poi n lat lng pois = "needs_review" ∨
      auto_approve_poi n lat lng pois = "approved") ∧
    (∀ (n : String) (lat lng : ℝ) (pois : List PoiRow),
      (∀ p ∈ pois, ¬ sqlDistance lat lng p.latitude p.longitude ≤ 3/10) →
      auto_approve_poi n lat lng pois = "approved") ∧
    auto_approve_poi "Galle Fort" 0 0 [galleFortMuseumRow] = "needs_review" ∧
    auto_approve_poi "Jungle Beach Cafe" 0 0 [galleFortRow] = "needs_review" := by
  refine ⟨?_, ?_, ?_, ?_, ?_⟩
  · intro n lat lng pois
    unfold auto_approve_poi
    by_cases hclose : ∃ p ∈ pois, poiActive p ∧ sqlDistance lat lng p.latitude p.longitude ≤ 3/10
    · rw [if_pos hclose]
      by_cases hsim : ∃ p ∈ pois, poiActive p ∧
          sqlDistance lat lng p.latitude p.longitude ≤ 3/10 ∧ names_are_similar n p.name = true
      · rw [if_pos hsim]
        simp [hsim]
      · rw [if_neg hsim]
        simp [hsim]
    · rw [if_neg hclose]
      constructor
      · intro h
        exact absurd h (by simp)
      · rintro ⟨p, hp, hact, hdist, _⟩
        exact absurd ⟨p, hp, hact, hdist⟩ hclose
  · intro n lat lng pois
    unfold auto_approve_poi
    by_cases hclose : ∃ p ∈ pois, poiActive p ∧ sqlDistance lat lng p.latitude p.longitude ≤ 3/10
    · rw [if_pos hclose]
      by_cases hsim : ∃ p ∈ pois, poiActive p ∧
          sqlDistance lat lng p.latitude p.longitude ≤ 3/10 ∧ names_are_similar n p.name = true
      · rw [if_pos hsim]
        exact Or.inl rfl
      · rw [if_neg hsim]
        exact Or.inr rfl
    · rw [if_neg hclose]
      exact Or.inr rfl
  · intro n lat lng pois hfar
    unfold auto_approve_poi
    rw [if_neg ?_]
    rintro ⟨p, hp, _, hdist⟩
    exact hfar p hp hdist
  · have hc : ∃ p ∈ [galleFortMuseumRow], poiActive p ∧
        sqlDistance 0 0 p.latitude p.longitude ≤ 3/10 :=
      ⟨galleFortMuseumRow, List.mem_singleton.mpr rfl, Or.inl rfl, sqlDistance_50m⟩
    have hs : ∃ p ∈ [galleFortMuseumRow], poiActive p ∧
        sqlDistance 0 0 p.latitude p.longitude ≤ 3/10 ∧
        names_are_similar "Galle Fort" p.name = true :=
      ⟨galleFortMuseumRow, List.mem_singleton.mpr rfl, Or.inl rfl, sqlDistance_50m, by decide⟩
    unfold auto_approve_poi
    rw [if_pos hc, if_pos hs]
  · have hc : ∃ p ∈ [galleFortRow], poiActive p ∧
        sqlDistance 0 0 p.latitude p.longitude ≤ 3/10 :=
      ⟨galleFortRow, List.mem_singleton.mpr rfl, Or.inl rfl, sqlDistance_50m⟩
    have hs : ∃ p ∈ [galleFortRow], poiActive p ∧
        sqlDistance 0 0 p.latitude p.longitude ≤ 3/10 ∧
        names_are_similar "Jungle Beach Cafe" p.name = true :=
      ⟨galleFortRow, List.mem_singleton.mpr rfl, Or.inl rfl, sqlDistance_50m,
        jungle_beach_similar_to_galle_fort⟩
    unfold auto_approve_poi
    rw [if_pos hc, if_pos hs]

/-- C6 witness: a POI with no existing POI anywhere near is approved. -/
theorem C6_dedup_classifier_witness :
    auto_approve_poi "Jungle Beach Cafe" 100 100 [] = "approved" :=
  C6_dedup_classifier.2.2.1 "Jungle Beach Cafe" 100 100 []
    (fun p hp => absurd hp (List.not_mem_nil p))
